import Mathlib

/-!
# AquaSentinel — formal model of the analytic core

Shallow embedding of the AquaSentinel backend (Python) into Lean 4.

Conventions used throughout:
* Python `float` values are modelled as `ℚ` wherever the code performs plain
  arithmetic on finite values; the validator, whose specification concerns
  non-finite inputs, uses an explicit `PyFloat` type with IEEE comparison
  semantics (every comparison involving NaN is false).
* Python's `round(x, 1)` (round half to even on the scaled value) is modelled
  exactly by `round1`.
* Stateful methods become explicit state-passing functions; `async` functions
  that only compute are modelled as pure functions.
* Log output, message strings built by f-string interpolation, and timestamps
  are not observable by any claim; messages are modelled by constructors
  carrying the numeric data that the source interpolates.
-/

namespace AquaSentinel

/-! ## Preliminaries: Python rounding -/

/-- Round half to even, as Python's builtin `round` does on an exact value:
`roundEven 2.5 = 2`, `roundEven 3.5 = 4`, `roundEven (-2.5) = -2`. -/
def roundEven (q : ℚ) : ℤ :=
  let f : ℤ := ⌊q⌋
  let r : ℚ := q - f
  if r < 1/2 then f
  else if r > 1/2 then f + 1
  else if 2 ∣ f then f else f + 1

/-- Python's `round(x, 1)`: round to one decimal digit, half to even. -/
def round1 (q : ℚ) : ℚ := (roundEven (10 * q) : ℚ) / 10

/-! ## Data model: sensor readings (`sensors.SensorReading`)

The dataclass fields `tds, ph, orp, turbidity, temperature` are modelled as
rationals.  The `timestamp` field is never inspected by any analysis function
(it is only copied into output dictionaries), so it is omitted from the
embedded record. -/

structure Reading where
  tds : ℚ
  ph : ℚ
  orp : ℚ
  turbidity : ℚ
  temperature : ℚ
deriving DecidableEq, Repr

/-- The five monitored parameters. -/
inductive Param where
  | tds
  | ph
  | orp
  | turbidity
  | temperature
deriving DecidableEq, Repr

/-- `getattr(reading, param)`. -/
def Reading.get (r : Reading) : Param → ℚ
  | .tds => r.tds
  | .ph => r.ph
  | .orp => r.orp
  | .turbidity => r.turbidity
  | .temperature => r.temperature

/-! ## `ml_model_simple.SimpleFilterPredictor.predict_saturation`

The source draws `random.uniform(-5, 5)`; the draw is modelled as an explicit
parameter `jitter` (the callers quantify over `-5 ≤ jitter ≤ 5`).
`filter_usage_hours` is accepted and ignored, exactly as in the source.
The result dictionary `{"error": ...}` returned for an empty reading list
is modelled by the `error` constructor. -/

structure FilterAnalysis where
  saturation_percent : ℚ
  days_until_replacement : ℚ
  replacement_needed : Bool
  confidence : String
deriving DecidableEq, Repr

inductive FilterResult where
  | error
  | ok (a : FilterAnalysis)
deriving DecidableEq, Repr

/-- `filter_analysis.get("replacement_needed")`: on the error dictionary the
key is missing and `get` returns `None`, which is falsy. -/
def FilterResult.replacementNeeded : FilterResult → Bool
  | .error => false
  | .ok a => a.replacement_needed

/-- `filter_analysis.get("saturation_percent", 0)`. -/
def FilterResult.satPercent : FilterResult → ℚ
  | .error => 0
  | .ok a => a.saturation_percent

/-- `SimpleFilterPredictor.predict_saturation` (ml_model_simple.py lines
42–78).  Readings are objects (the `hasattr` branch); the latest reading is
`readings[-1]`. -/
def predict_saturation (readings : List Reading) (_filter_usage_hours : ℚ)
    (days_since_replacement : ℤ) (jitter : ℚ) : FilterResult :=
  match readings.getLast? with
  | none => .error
  | some latest =>
    let base0 : ℚ := min ((days_since_replacement : ℚ) * (12/10)) 90
    let base1 : ℚ := if latest.tds > 300 then base0 + 10 else base0
    let base2 : ℚ := if latest.turbidity > 1/2 then base1 + 15 else base1
    let base3 : ℚ := if latest.ph < 13/2 ∨ latest.ph > 17/2 then base2 + 5 else base2
    let saturation : ℚ := min (base3 + jitter) 100
    let days_remaining : ℚ := if saturation < 80 then (80 - saturation) / (3/2) else 0
    .ok { saturation_percent := round1 saturation
          days_until_replacement := round1 days_remaining
          replacement_needed := saturation ≥ 80
          confidence := if saturation > 20 then "high" else "medium" }

/-- Modelled from the spec: the saturation value that claim C1 asserts the
predictor returns — baseline `min(days × 1.2, 90)` plus the three additive
penalties, clamped into `[0, 100]`. -/
def spec_saturation (latest : Reading) (days_since_replacement : ℤ) : ℚ :=
  let base : ℚ := min ((days_since_replacement : ℚ) * (12/10)) 90
  let pen : ℚ :=
    (if latest.tds > 300 then 10 else 0)
    + (if latest.turbidity > 1/2 then 15 else 0)
    + (if latest.ph < 13/2 ∨ latest.ph > 17/2 then 5 else 0)
  min (max (base + pen) 0) 100

/-! ## `ml_model_simple.SimpleAnomalyDetector.detect_anomalies`

Pure threshold checks; the dictionary of messages is modelled as the list of
flagged parameters in insertion order (message text carries no further
decision content). -/

def simple_detect_anomalies (r : Reading) : List Param :=
  (if r.tds < 50 ∨ r.tds > 800 then [Param.tds] else [])
  ++ (if r.ph < 6 ∨ r.ph > 9 then [Param.ph] else [])
  ++ (if r.orp < 100 ∨ r.orp > 900 then [Param.orp] else [])
  ++ (if r.turbidity > 5 then [Param.turbidity] else [])

/-! ## `ml_model_simple.SimpleWaterQualityOptimizer._calculate_quality_score` -/

def tds_score (tds : ℚ) : ℚ :=
  if 150 ≤ tds ∧ tds ≤ 300 then 100 else max 0 (100 - |tds - 225| / 2)

def ph_score (ph : ℚ) : ℚ :=
  if 13/2 ≤ ph ∧ ph ≤ 17/2 then 100 else max 0 (100 - |ph - 36/5| * 20)

def orp_score (orp : ℚ) : ℚ :=
  if 300 ≤ orp ∧ orp ≤ 600 then 100 else max 0 (100 - |orp - 450| / 5)

def turb_score (turbidity : ℚ) : ℚ :=
  if turbidity ≤ 1 then 100 else max 0 (100 - (turbidity - 1) * 50)

/-- `_calculate_quality_score`: mean of the four sub-scores, rounded to one
decimal. -/
def calculate_quality_score (tds ph orp turbidity : ℚ) : ℚ :=
  round1 ((tds_score tds + ph_score ph + orp_score orp + turb_score turbidity) / 4)

/-- `SimpleWaterQualityOptimizer._get_overall_status` (identical to
`WaterQualityOptimizer`'s thresholds in ml_model.py). -/
def get_overall_status (score : ℚ) : String :=
  if score ≥ 90 then "excellent"
  else if score ≥ 80 then "good"
  else if score ≥ 70 then "acceptable"
  else if score ≥ 60 then "poor"
  else "critical"

/-! ## Alerts and `ml_model_simple.analyze_water_quality`

An alert is modelled by its `type` and `severity` fields (the `message`
f-string carries no further decision content). -/

structure Alert where
  type : String
  severity : String
deriving DecidableEq, Repr

/-- The analysis dictionary assembled by `ml_model_simple.analyze_water_quality`
(the `timestamp` and `current_readings` echo fields are omitted; the
`optimization` sub-dictionary is represented by the two fields the pipeline
consumes, `quality_score` and `overall_status`). -/
structure SimpleAnalysis where
  filter_analysis : FilterResult
  anomalies : List Param
  quality_score : ℚ
  overall_status : String
  alerts : List Alert
deriving DecidableEq, Repr

/-- `ml_model_simple.analyze_water_quality` (lines 247–291).  Returns `none`
for the `{"error": "No sensor readings provided"}` dictionary. -/
def analyze_water_quality_simple (readings : List Reading) (usage_hours : ℚ)
    (days_since_replacement : ℤ) (jitter : ℚ) : Option SimpleAnalysis :=
  match readings.getLast? with
  | none => none
  | some latest =>
    let fa := predict_saturation readings usage_hours days_since_replacement jitter
    let anomalies := simple_detect_anomalies latest
    let score := calculate_quality_score latest.tds latest.ph latest.orp latest.turbidity
    let alerts : List Alert :=
      (if fa.replacementNeeded then [{ type := "filter_replacement", severity := "high" }] else [])
      ++ anomalies.map (fun _ => { type := "sensor_anomaly", severity := "high" })
      ++ (if score < 70 then [{ type := "water_quality", severity := "medium" }] else [])
    some { filter_analysis := fa
           anomalies := anomalies
           quality_score := score
           overall_status := get_overall_status score
           alerts := alerts }

/-! ## `ml_model.AnomalyDetector`

`update_baseline` stores, per parameter, `np.mean`, `np.std`, `np.median` and
the 25th/75th `np.percentile` of the last 50 values.  `np.std` is the
nonnegative square root of the population variance and is irrational in
general, so the embedded record stores the variance `var = std²` instead, and
the detector's comparison `abs(value - mean) > 3 * std` is rendered by the
exactly equivalent `(value - mean)² > 9 · var` (lemma `abs_gt_iff_sq_gt`
below proves the equivalence for `std ≥ 0`). -/

structure BaselineStats where
  mean : ℚ
  var : ℚ
  median : ℚ
  q25 : ℚ
  q75 : ℚ
deriving DecidableEq, Repr

/-- The `baseline_stats` dictionary: per-parameter optional statistics. -/
structure Baseline where
  tds : Option BaselineStats
  ph : Option BaselineStats
  orp : Option BaselineStats
  turbidity : Option BaselineStats
  temperature : Option BaselineStats
deriving DecidableEq, Repr

def Baseline.get (b : Baseline) : Param → Option BaselineStats
  | .tds => b.tds
  | .ph => b.ph
  | .orp => b.orp
  | .turbidity => b.turbidity
  | .temperature => b.temperature

/-- The freshly constructed detector: `self.baseline_stats = {}`. -/
def Baseline.empty : Baseline := ⟨none, none, none, none, none⟩

/-- `np.mean`. -/
def listMean (xs : List ℚ) : ℚ := xs.sum / xs.length

/-- Population variance, i.e. the square of `np.std` (`ddof = 0`). -/
def listVariance (xs : List ℚ) : ℚ :=
  (xs.map (fun x => (x - listMean xs) ^ 2)).sum / xs.length

/-- `np.percentile` with the default linear interpolation; `np.median` is
`percentile _ 50`.  Defined as `0` on the empty list (the source only applies
it to windows of at least 10 readings). -/
def percentile (xs : List ℚ) (p : ℚ) : ℚ :=
  let sorted := xs.mergeSort (fun a b => a ≤ b)
  match sorted with
  | [] => 0
  | _ =>
    let n := sorted.length
    let pos : ℚ := ((n : ℚ) - 1) * p / 100
    let i : ℕ := (⌊pos⌋).toNat
    let frac : ℚ := pos - ⌊pos⌋
    let lo := sorted.getD i 0
    let hi := sorted.getD (min (i + 1) (n - 1)) 0
    lo + frac * (hi - lo)

def computeStats (xs : List ℚ) : BaselineStats :=
  { mean := listMean xs
    var := listVariance xs
    median := percentile xs 50
    q25 := percentile xs 25
    q75 := percentile xs 75 }

/-- `AnomalyDetector.update_baseline` (ml_model.py lines 291–306): a no-op on
fewer than 10 readings, otherwise recomputes every parameter's statistics from
the last 50 readings (`readings[-50:]`). -/
def update_baseline (b : Baseline) (readings : List Reading) : Baseline :=
  if readings.length < 10 then b
  else
    let recent := readings.drop (readings.length - 50)
    let statsFor : Param → BaselineStats := fun p => computeStats (recent.map (fun r => r.get p))
    { tds := some (statsFor .tds)
      ph := some (statsFor .ph)
      orp := some (statsFor .orp)
      turbidity := some (statsFor .turbidity)
      temperature := some (statsFor .temperature) }

/-- `self.anomaly_thresholds[param]['min']`. -/
def thresholdMin : Param → ℚ
  | .tds => 50
  | .ph => 6
  | .orp => 100
  | .turbidity => 0
  | .temperature => 10

/-- `self.anomaly_thresholds[param]['max']`. -/
def thresholdMax : Param → ℚ
  | .tds => 800
  | .ph => 9
  | .orp => 900
  | .turbidity => 5
  | .temperature => 35

/-- The anomaly message for one parameter, abstracted to the rule that fired
together with the numeric data the source interpolates into the f-string.
(The `stdOutlier` message divides by the stored `std` for display only; with
numpy float64 values that division yields `inf` rather than raising, so it
carries no decision content and is not modelled.) -/
inductive AnomalyMsg where
  | absoluteRange (value lo hi : ℚ)
  | stdOutlier (value mean var : ℚ)
  | iqrDeviation (value median : ℚ)
deriving DecidableEq, Repr

/-- The body of `AnomalyDetector.detect_anomalies` for one parameter
(ml_model.py lines 312–332): absolute range check with `continue`, then, when
baseline statistics exist, the 3·std outlier check followed by the IQR check
(whose message overwrites the outlier message in the dictionary). -/
def checkParam (stats? : Option BaselineStats) (value lo hi : ℚ) : Option AnomalyMsg :=
  if value < lo ∨ value > hi then some (.absoluteRange value lo hi)
  else
    match stats? with
    | none => none
    | some s =>
      let m1 : Option AnomalyMsg :=
        if (value - s.mean) ^ 2 > 9 * s.var then some (.stdOutlier value s.mean s.var) else none
      if |value - s.median| > 2 * (s.q75 - s.q25) then some (.iqrDeviation value s.median)
      else m1

/-- `AnomalyDetector.detect_anomalies`: the anomalies dictionary, as the list
of flagged parameters with their final message, in iteration order. -/
def detect_anomalies (b : Baseline) (r : Reading) : List (Param × AnomalyMsg) :=
  [Param.tds, .ph, .orp, .turbidity, .temperature].filterMap fun p =>
    (checkParam (b.get p) (r.get p) (thresholdMin p) (thresholdMax p)).map (fun m => (p, m))

/-- Modelled from the spec: "detector must treat an unset baseline for a
parameter as no statistical check available, falling back to absolute
thresholds only" — the detector restricted to its absolute range checks. -/
def absolute_only_detect (r : Reading) : List (Param × AnomalyMsg) :=
  [Param.tds, .ph, .orp, .turbidity, .temperature].filterMap fun p =>
    if r.get p < thresholdMin p ∨ r.get p > thresholdMax p then
      some (p, .absoluteRange (r.get p) (thresholdMin p) (thresholdMax p))
    else none

/-! ## `ml_model.WaterQualityOptimizer._calculate_quality_score`

The variant in ml_model.py scores 100 only at the optimal midpoint and decays
linearly inside the acceptable band from 80 at the band edge.  For a value
below a band minimum of 0 (turbidity) the source divides by zero, which for a
Python float raises `ZeroDivisionError`; the total `ℚ` division used here
gives 0 in that corner, which no claim exercises. -/

def subscore_ml (value tmin tmax topt : ℚ) : ℚ :=
  if value = topt then 100
  else if tmin ≤ value ∧ value ≤ tmax then
    if value < topt then 80 + 20 * (value - tmin) / (topt - tmin)
    else 80 + 20 * (tmax - value) / (tmax - topt)
  else if value < tmin then max 0 (80 * (value / tmin))
  else max 0 (80 * (tmax / value))

def quality_score_ml (r : Reading) : ℚ :=
  round1 ((subscore_ml r.tds 150 300 225 + subscore_ml r.ph (13/2) (17/2) (36/5)
    + subscore_ml r.orp 300 600 450 + subscore_ml r.turbidity 0 1 (1/5)) / 4)

/-! ## `ml_model._generate_alerts` and `ml_model.analyze_water_quality` -/

/-- `_generate_alerts` (ml_model.py lines 466–500). -/
def generate_alerts (filter_analysis : FilterResult) (anomalies : List (Param × AnomalyMsg))
    (quality_score : ℚ) : List Alert :=
  (if filter_analysis.replacementNeeded then
      [{ type := "filter_replacement", severity := "high" }]
    else if filter_analysis.satPercent > 60 then
      [{ type := "filter_warning", severity := "medium" }]
    else [])
  ++ anomalies.map (fun _ => ({ type := "sensor_anomaly", severity := "high" } : Alert))
  ++ (if quality_score < 70 then [{ type := "water_quality", severity := "medium" }] else [])

/-- The analysis dictionary assembled by `ml_model.analyze_water_quality`
(`timestamp` / `current_readings` echo fields omitted; the `optimization`
sub-dictionary represented by the two fields the pipeline consumes). -/
structure MLAnalysis where
  filter_analysis : FilterResult
  anomalies : List (Param × AnomalyMsg)
  quality_score : ℚ
  overall_status : String
  alerts : List Alert
deriving DecidableEq, Repr

/-- `ml_model.analyze_water_quality` (lines 439–464), with the module's
mutable `anomaly_detector.baseline_stats` passed and returned explicitly.
The trained `FilterSaturationPredictor` regression is external learned data;
it enters as the `predict` parameter (the spec flags this path as a pluggable
estimator). -/
def analyze_water_quality_ml (predict : List Reading → ℚ → ℤ → FilterResult)
    (b : Baseline) (readings : List Reading) (usage_hours : ℚ) (days_since_replacement : ℤ) :
    Baseline × Option MLAnalysis :=
  match readings.getLast? with
  | none => (b, none)
  | some latest =>
    let b1 := update_baseline b readings
    let fa := predict readings usage_hours days_since_replacement
    let anomalies := detect_anomalies b1 latest
    let score := quality_score_ml latest
    (b1, some { filter_analysis := fa
                anomalies := anomalies
                quality_score := score
                overall_status := get_overall_status score
                alerts := generate_alerts fa anomalies score })

/-! ## `sensors.SensorManager.validate_reading`

The validator's specification concerns non-finite inputs, so its readings are
modelled with an explicit Python-float type: comparisons involving NaN are
false, infinities compare in the usual way. -/

inductive PyFloat where
  | fin (q : ℚ)
  | nan
  | inf
  | ninf
deriving DecidableEq, Repr

/-- IEEE-754 `<` as Python evaluates it on floats. -/
def PyFloat.lt : PyFloat → PyFloat → Bool
  | .nan, _ => false
  | _, .nan => false
  | .fin a, .fin b => a < b
  | .fin _, .inf => true
  | .fin _, .ninf => false
  | .inf, _ => false
  | .ninf, .ninf => false
  | .ninf, _ => true

def PyFloat.isFinite : PyFloat → Bool
  | .fin _ => true
  | _ => false

/-- A `SensorReading` whose float fields may be non-finite (`timestamp`
omitted: the validator never inspects it). -/
structure PyReading where
  tds : PyFloat
  ph : PyFloat
  orp : PyFloat
  turbidity : PyFloat
  temperature : PyFloat
deriving DecidableEq, Repr

/-- Does any field hold a non-finite value?  (A dataclass instance cannot lack
a field, so "missing" has no inhabitant against this signature.) -/
def hasNonFinite (r : PyReading) : Bool :=
  !(r.tds.isFinite && r.ph.isFinite && r.orp.isFinite
    && r.turbidity.isFinite && r.temperature.isFinite)

/-- `SensorManager.validate_reading` (sensors.py lines 227–253).  The source
contains no raise statement; the `Except` result type makes the absence of a
failure mode a stated fact rather than an artifact of the embedding. -/
def validate_reading (r : PyReading) : Except String (List (String × String)) :=
  let warnings : List (String × String) := []
  let warnings :=
    if r.ph.lt (.fin (13/2)) then warnings ++ [("ph", "pH too low - water is acidic")]
    else if (PyFloat.fin (17/2)).lt r.ph then warnings ++ [("ph", "pH too high - water is alkaline")]
    else warnings
  let warnings :=
    if (PyFloat.fin 600).lt r.tds then warnings ++ [("tds", "TDS too high - excessive dissolved solids")]
    else if r.tds.lt (.fin 50) then warnings ++ [("tds", "TDS too low - may lack essential minerals")]
    else warnings
  let warnings :=
    if (PyFloat.fin 1).lt r.turbidity then warnings ++ [("turbidity", "Turbidity too high - water appears cloudy")]
    else warnings
  let warnings :=
    if r.orp.lt (.fin 200) then warnings ++ [("orp", "ORP too low - poor disinfection potential")]
    else if (PyFloat.fin 800).lt r.orp then warnings ++ [("orp", "ORP too high - over-oxidized water")]
    else warnings
  .ok warnings

/-! ## `sensors.SensorManager._parse_sensor_response`

The response string is processed through `str.split`, `str.strip`,
`str.lower` and `float`; these are modelled over `List Char` so that concrete
inputs evaluate.  `float` is modelled on its decimal core (sign, digits,
fraction, exponent); the claims depend only on whether parsing succeeds. -/

/-- Python `str.split(sep)` for a one-character separator:
`pySplit sep [] = [[]]`, matching `"".split(sep) == ['']`. -/
def pySplit (sep : Char) : List Char → List (List Char)
  | [] => [[]]
  | c :: rest =>
    let r := pySplit sep rest
    if c = sep then [] :: r
    else
      match r with
      | [] => [[c]]
      | h :: t => (c :: h) :: t

/-- Python `str.strip()`. -/
def pyStrip (cs : List Char) : List Char :=
  ((cs.dropWhile Char.isWhitespace).reverse.dropWhile Char.isWhitespace).reverse

/-- Python `str.lower()` (ASCII range suffices for the sensor keys). -/
def pyLower (cs : List Char) : List Char := cs.map Char.toLower

def digitsToNat (ds : List Char) : ℕ := ds.foldl (fun n c => 10 * n + (c.toNat - 48)) 0

/-- Leading sign of a float literal. -/
def splitSign : List Char → ℤ × List Char
  | '+' :: rest => (1, rest)
  | '-' :: rest => (-1, rest)
  | cs => (1, cs)

/-- The decimal core of Python's `float(s)` on an already-stripped string:
optional sign, digits with optional fraction (at least one digit overall),
optional exponent.  Special forms (`inf`, `nan`, underscores) are omitted —
no claim depends on them. -/
def parseFloatQ (cs : List Char) : Option ℚ :=
  let (sgn, cs0) := splitSign cs
  let ip := cs0.takeWhile Char.isDigit
  let cs1 := cs0.drop ip.length
  let (fp, cs2) :=
    match cs1 with
    | '.' :: rest => (rest.takeWhile Char.isDigit, rest.drop (rest.takeWhile Char.isDigit).length)
    | _ => ([], cs1)
  if ip.length + fp.length = 0 then none
  else
    let mant : ℚ := (sgn : ℚ) * ((digitsToNat ip : ℚ) + (digitsToNat fp : ℚ) / 10 ^ fp.length)
    match cs2 with
    | [] => some mant
    | c :: rest =>
      if c = 'e' ∨ c = 'E' then
        let (esgn, ecs) := splitSign rest
        let ed := ecs.takeWhile Char.isDigit
        if ed.length = 0 ∨ ecs.drop ed.length ≠ [] then none
        else some (mant * (10 : ℚ) ^ (esgn * (digitsToNat ed : ℤ)))
      else none

/-- One `pair` of the response: `key, value = pair.split(':')` (exactly two
parts, else `ValueError`) followed by `float(value.strip())`. -/
def wellFormedPair (pair : List Char) : Bool :=
  match pySplit ':' pair with
  | [_, v] => (parseFloatQ (pyStrip v)).isSome
  | _ => false

/-- The `for pair in pairs` loop building the `data` dictionary; any failing
pair aborts the whole parse (the source's `except` returns `None`). -/
def parsePairs : List (List Char) → Option (List (List Char × ℚ))
  | [] => some []
  | pair :: rest =>
    match pySplit ':' pair with
    | [k, v] =>
      match parseFloatQ (pyStrip v) with
      | some q => (parsePairs rest).map (fun l => (pyLower (pyStrip k), q) :: l)
      | none => none
    | _ => none

/-- The `data` dictionary: later assignments to the same key overwrite. -/
def buildDict (ps : List (List Char × ℚ)) : List Char → Option ℚ :=
  ps.foldl (fun d kv => fun k => if k = kv.1 then some kv.2 else d k) (fun _ => none)

/-- `SensorManager._parse_sensor_response` (sensors.py lines 145–167).
Returns the reading with `data.get` defaults for absent keys, or `none` when
any step of the parse raises (`timestamp := datetime.now()` omitted). -/
def parse_sensor_response (response : String) : Option Reading :=
  (parsePairs (pySplit ',' response.data)).map fun ps =>
    let d := buildDict ps
    { tds := (d "tds".data).getD 0
      ph := (d "ph".data).getD 7
      orp := (d "orp".data).getD 0
      turbidity := (d "turb".data).getD 0
      temperature := (d "temp".data).getD 20 }

/-! ## `main.background_monitoring` — the Monitoring Loop

The loop's state is the `monitoring_active` flag (module-level in main.py)
and the persisted readings.  One iteration's interaction with the outside
world is summarised by a `TickEvent`: the sensor read returned `None`, it
returned a reading (and the body's persistence / publish / broadcast steps
ran), or some step raised an `Exception` (caught by the iteration's
`except Exception` handler).  `asyncio.sleep` durations are recorded as data.
`CancelledError` / `KeyboardInterrupt` derive from `BaseException` and are
process-level control flow outside this model. -/

inductive TickEvent where
  | readNone
  | readSome (r : Reading)
  | raised
deriving DecidableEq, Repr

structure MonitorState where
  monitoring_active : Bool
  saved : List Reading
deriving DecidableEq, Repr

/-- One iteration of the `while monitoring_active` body (main.py lines
394–444): on success sleep 30 s, on a caught exception log and sleep 60 s.
No branch touches `monitoring_active`. -/
def monitoring_iteration (st : MonitorState) (ev : TickEvent) : MonitorState × ℕ :=
  match ev with
  | .readNone => (st, 30)
  | .readSome r => ({ st with saved := st.saved ++ [r] }, 30)
  | .raised => (st, 60)

/-- The `while monitoring_active` loop run against a finite schedule of tick
events, returning the final state and the log of sleep durations.  The flag
is observed at the top of each iteration; once it is observed false the loop
exits and the remaining events are never consumed. -/
def background_monitoring : MonitorState → List TickEvent → MonitorState × List ℕ
  | st, [] => (st, [])
  | st, ev :: evs =>
    if st.monitoring_active then
      let step := monitoring_iteration st ev
      let rest := background_monitoring step.1 evs
      (rest.1, step.2 :: rest.2)
    else (st, [])

/-- The shutdown path (`monitoring_active = False` in `lifespan`, mirroring
`SensorManager.stop_monitoring`): the only writer that clears the flag. -/
def stop_monitoring (st : MonitorState) : MonitorState := { st with monitoring_active := false }

/-! ## Helper lemmas -/

/-- An iteration of the monitoring body never changes the running flag. -/
theorem monitoring_iteration_active (st : MonitorState) (ev : TickEvent) :
    ((monitoring_iteration st ev).1).monitoring_active = st.monitoring_active := by
  cases ev <;> rfl

/-- The comparison against `3 · std` stated on the stored variance
`var = std²`: for `std ≥ 0`, `|d| > 3·std ↔ d² > 9·std²`. -/
theorem abs_gt_iff_sq_gt (d s : ℚ) (hs : 0 ≤ s) : |d| > 3 * s ↔ d ^ 2 > 9 * s ^ 2 := by
  constructor
  · intro h
    nlinarith [sq_abs d, abs_nonneg d]
  · intro h
    by_contra hc
    push_neg at hc
    nlinarith [sq_abs d, abs_nonneg d]

/-! ## Claim theorems -/

/-- C1 (amended): for every non-empty reading sequence, the returned
`saturation_percent` equals the baseline `min(days × 1.2, 90)` plus the
additive penalties plus the random jitter drawn from `[-5, 5]`, clamped
**above** at 100 only and rounded to one decimal — there is no lower clamp at
0, so the result can be negative. -/
theorem c1_theorem (readings : List Reading) (latest : Reading) (usage : ℚ) (d : ℤ) (j : ℚ)
    (hlast : readings.getLast? = some latest) :
    ∃ a, predict_saturation readings usage d j = .ok a
      ∧ a.saturation_percent
        = round1 (min (min ((d : ℚ) * (12/10)) 90
            + ((if latest.tds > 300 then (10:ℚ) else 0)
               + (if latest.turbidity > 1/2 then 15 else 0)
               + (if latest.ph < 13/2 ∨ latest.ph > 17/2 then 5 else 0)) + j) 100) := by
  simp only [predict_saturation, hlast]
  refine ⟨_, rfl, ?_⟩
  split_ifs <;> ring_nf

/-- C1 witness: the amended closed form evaluated at a one-reading history. -/
theorem c1_witness :
    ∃ a, predict_saturation [⟨250, 36/5, 400, 3/10, 22⟩] 0 30 2 = .ok a
      ∧ a.saturation_percent = round1 (min (min ((30 : ℚ) * (12/10)) 90 + (0 + 0 + 0) + 2) 100) := by
  have h := c1_theorem [⟨250, 36/5, 400, 3/10, 22⟩] ⟨250, 36/5, 400, 3/10, 22⟩ 0 30 2 rfl
  obtain ⟨a, ha, hsat⟩ := h
  exact ⟨a, ha, by rw [hsat]; norm_num⟩

/-- C1 counterexample: at the admissible jitter −5, a fresh filter and a clean
reading, the code returns saturation −5 while the claimed clamped value is 0
— the claim's equality and its `[0, 100]` range both fail. -/
theorem c1_counterexample :
    ((-5 : ℚ) ≤ -5 ∧ (-5 : ℚ) ≤ 5)
    ∧ predict_saturation [⟨250, 36/5, 400, 3/10, 22⟩] 0 0 (-5)
        = .ok ⟨-5, 567/10, false, "medium"⟩
    ∧ spec_saturation ⟨250, 36/5, 400, 3/10, 22⟩ 0 = 0
    ∧ ((-5 : ℚ) ≠ 0) := by
  refine ⟨by norm_num, ?_, ?_, by norm_num⟩
  · simp only [predict_saturation, List.getLast?]
    norm_num [round1, roundEven, min_def, Int.floor_eq_iff]
  · norm_num [spec_saturation]

/-- C2: the monitoring loop's iterations never change the running flag (so no
exception inside an iteration ends the loop); an iteration that raises leaves
the state untouched and sleeps the 60 s backoff; a loop whose flag is set
processes every scheduled tick (it retries after failures); and once
`stop_monitoring` clears the flag, the next flag check exits the loop without
consuming any further event. -/
theorem c2_theorem :
    (∀ st evs, ((background_monitoring st evs).1).monitoring_active = st.monitoring_active)
    ∧ (∀ st, monitoring_iteration st .raised = (st, 60))
    ∧ (∀ saved evs, ((background_monitoring ⟨true, saved⟩ evs).2).length = evs.length)
    ∧ (∀ st evs, background_monitoring (stop_monitoring st) evs = (stop_monitoring st, [])) := by
  have hactive : ∀ evs st, ((background_monitoring st evs).1).monitoring_active
      = st.monitoring_active := by
    intro evs
    induction evs with
    | nil => intro st; rfl
    | cons ev evs ih =>
      intro st
      simp only [background_monitoring]
      split
      · rw [ih, monitoring_iteration_active]
      · rfl
  refine ⟨fun st evs => hactive evs st, fun st => rfl, ?_, ?_⟩
  · have hlen : ∀ evs st, st.monitoring_active = true →
        ((background_monitoring st evs).2).length = evs.length := by
      intro evs
      induction evs with
      | nil => intro st _; rfl
      | cons ev evs ih =>
        intro st hst
        simp only [background_monitoring, hst, if_true]
        have : ((monitoring_iteration st ev).1).monitoring_active = true := by
          rw [monitoring_iteration_active]; exact hst
        simp [ih _ this]
    exact fun saved evs => hlen evs ⟨true, saved⟩ rfl
  · intro st evs
    cases evs with
    | nil => rfl
    | cons ev evs => simp [background_monitoring, stop_monitoring]

/-- C3 (amended): the Validator is a pure total function with **no** failure
mode: it contains no check for non-finite fields and never fails with
InvalidReading.  Every reading — including ones with non-finite fields —
yields a warning mapping; a finite reading inside all safe ranges yields the
empty mapping; and a NaN field is silently accepted (all comparisons against
NaN are false), producing no warning for that parameter. -/
theorem c3_theorem :
    (∀ r : PyReading, ∃ w, validate_reading r = .ok w)
    ∧ (∀ t p o tb tp : ℚ, 13/2 ≤ p → p ≤ 17/2 → 50 ≤ t → t ≤ 600 → tb ≤ 1 →
        200 ≤ o → o ≤ 800 →
        validate_reading ⟨.fin t, .fin p, .fin o, .fin tb, .fin tp⟩ = .ok [])
    ∧ (∀ r : PyReading, r.ph = .nan →
        ∃ w, validate_reading r = .ok w ∧ w.lookup "ph" = none) := by
  refine ⟨fun r => ⟨_, rfl⟩, ?_, ?_⟩
  · intro t p o tb tp h1 h2 h3 h4 h5 h6 h7
    simp only [validate_reading, PyFloat.lt]
    rw [if_neg, if_neg, if_neg, if_neg, if_neg, if_neg, if_neg]
    all_goals simp
    all_goals linarith
  · intro r hph
    obtain ⟨tds, ph, orp, turb, temp⟩ := r
    simp only at hph
    subst hph
    simp only [validate_reading, PyFloat.lt]
    refine ⟨_, rfl, ?_⟩
    split_ifs <;> simp_all [List.lookup]

/-- C3 witness: a finite in-range reading validates to the empty mapping. -/
theorem c3_witness :
    validate_reading ⟨.fin 250, .fin 7, .fin 400, .fin (1/2), .fin 22⟩ = .ok [] := by
  exact c3_theorem.2.1 250 7 400 (1/2) 22 (by norm_num) (by norm_num) (by norm_num)
    (by norm_num) (by norm_num) (by norm_num) (by norm_num)

/-- C3 counterexample: a reading whose ph is NaN is non-finite, yet the
Validator does not fail — it returns the empty warning mapping, contradicting
the claimed InvalidReading failure mode. -/
theorem c3_counterexample :
    hasNonFinite ⟨.fin 250, .nan, .fin 400, .fin (3/10), .fin 22⟩ = true
    ∧ validate_reading ⟨.fin 250, .nan, .fin 400, .fin (3/10), .fin 22⟩ = .ok [] := by
  constructor
  · rfl
  · simp only [validate_reading, PyFloat.lt]
    norm_num

/-- C4 (amended). -/
theorem c4_theorem :
    (∀ (fa : FilterResult) (anoms : List (Param × AnomalyMsg)) (score : ℚ),
        fa.replacementNeeded = false → fa.satPercent > 60 →
        ({ type := "filter_warning", severity := "medium" } : Alert)
          ∈ generate_alerts fa anoms score)
    ∧ (∀ (fa : FilterResult) (anoms : List (Param × AnomalyMsg)) (score : ℚ),
        fa.replacementNeeded = true →
        ({ type := "filter_replacement", severity := "high" } : Alert)
          ∈ generate_alerts fa anoms score)
    ∧ (∀ (readings : List Reading) (u : ℚ) (d : ℤ) (j : ℚ) (a : SimpleAnalysis),
        analyze_water_quality_simple readings u d j = some a →
        ∀ al ∈ a.alerts, al.type ≠ "filter_warning") := by
  refine ⟨?_, ?_, ?_⟩
  · intro fa anoms score h1 h2
    simp [generate_alerts, h1, h2]
  · intro fa anoms score h1
    simp [generate_alerts, h1]
  · intro readings u d j a ha al hal
    cases hl : readings.getLast? with
    | none => simp [analyze_water_quality_simple, hl] at ha
    | some latest =>
      simp only [analyze_water_quality_simple, hl] at ha
      obtain rfl := Option.some.inj ha
      dsimp only at hal
      simp only [List.mem_append, List.mem_map] at hal
      rcases hal with (h | ⟨x, hx, rfl⟩) | h
      · split at h <;> simp_all
      · simp
      · split at h <;> simp_all

/-- C4 witness. -/
theorem c4_witness :
    ({ type := "filter_warning", severity := "medium" } : Alert)
      ∈ generate_alerts (.ok ⟨70, 67/10, false, "high"⟩) [] 100 := by
  exact c4_theorem.1 (.ok ⟨70, 67/10, false, "high"⟩) [] 100 rfl (by norm_num [FilterResult.satPercent])

/-- C4 counterexample. -/
theorem c4_counterexample :
    analyze_water_quality_simple [⟨250, 36/5, 400, 3/10, 22⟩] 0 58 (2/5)
      = some ⟨.ok ⟨70, 67/10, false, "high"⟩, [], 100, "excellent", []⟩
    ∧ (FilterResult.ok ⟨70, 67/10, false, "high"⟩).replacementNeeded = false
    ∧ (FilterResult.ok ⟨70, 67/10, false, "high"⟩).satPercent > 60
    ∧ ({ type := "filter_warning", severity := "medium" } : Alert) ∉ ([] : List Alert) := by
  refine ⟨?_, rfl, by norm_num [FilterResult.satPercent], by simp⟩
  simp only [analyze_water_quality_simple, predict_saturation, List.getLast?,
    simple_detect_anomalies, calculate_quality_score, tds_score, ph_score,
    orp_score, turb_score, get_overall_status, FilterResult.replacementNeeded]
  norm_num [round1, roundEven, min_def, Int.floor_eq_iff]

/-- `checkParam` with no baseline statistics reduces to the absolute check. -/
theorem checkParam_none (v lo hi : ℚ) :
    checkParam none v lo hi
      = if v < lo ∨ v > hi then some (.absoluteRange v lo hi) else none := by
  simp only [checkParam]

/-- C5. -/
theorem c5_theorem :
    (∀ (stats? : Option BaselineStats) (v lo hi : ℚ), (v < lo ∨ v > hi) →
        checkParam stats? v lo hi = some (.absoluteRange v lo hi))
    ∧ (∀ (s : BaselineStats) (v lo hi σ : ℚ), lo ≤ v → v ≤ hi → 0 ≤ σ → s.var = σ ^ 2 →
        |v - s.mean| > 3 * σ → (checkParam (some s) v lo hi).isSome = true)
    ∧ (∃ m, (Param.tds, m) ∈ detect_anomalies
        ⟨some ⟨200, 100, 200, 195, 205⟩, none, none, none, none⟩
        ⟨500, 36/5, 400, 3/10, 22⟩) := by
  refine ⟨?_, ?_, ?_⟩
  · intro stats? v lo hi h
    simp only [checkParam]
    rw [if_pos h]

  · intro s v lo hi σ h1 h2 hσ hvar habs
    have hm1 : (v - s.mean) ^ 2 > 9 * s.var := by
      rw [hvar]
      exact (abs_gt_iff_sq_gt _ _ hσ).1 habs
    simp only [checkParam]
    rw [if_neg (by push_neg; exact ⟨h1, h2⟩)]
    split <;> simp_all
  · refine ⟨.iqrDeviation 500 200, ?_⟩
    norm_num [detect_anomalies, checkParam, Baseline.get, Reading.get, thresholdMin,
      thresholdMax, List.filterMap]

/-- C5 witness. -/
theorem c5_witness :
    checkParam (some ⟨200, 100, 200, 195, 205⟩) 900 50 800 = some (.absoluteRange 900 50 800)
    ∧ (checkParam (some ⟨200, 100, 200, 195, 205⟩) 500 50 800).isSome = true := by
  constructor
  · exact c5_theorem.1 _ 900 50 800 (by norm_num)
  · exact c5_theorem.2.1 ⟨200, 100, 200, 195, 205⟩ 500 50 800 10 (by norm_num) (by norm_num)
      (by norm_num) (by norm_num) (by rw [show |(500:ℚ) - 200| = 300 by norm_num]; norm_num)

/-- C6. -/
theorem c6_theorem :
    (∀ (b : Baseline) (readings : List Reading), readings.length < 10 →
        update_baseline b readings = b)
    ∧ (∀ r : Reading, detect_anomalies Baseline.empty r = absolute_only_detect r) := by
  constructor
  · intro b readings h
    simp only [update_baseline, if_pos h]
  · intro r
    apply List.filterMap_congr
    intro p _
    cases p <;> (simp only [Baseline.empty, Baseline.get, checkParam_none]; split <;> rfl)

/-- C6 witness. -/
theorem c6_witness : update_baseline Baseline.empty [] = Baseline.empty := by
  exact c6_theorem.1 Baseline.empty [] (by norm_num)

/-- C7. -/
theorem c7_theorem (s : BaselineStats) (v lo hi : ℚ) (hvar : s.var = 0)
    (hmed : s.median = s.mean) (hq : s.q75 = s.q25) (h1 : lo ≤ v) (h2 : v ≤ hi) :
    (v = s.mean → checkParam (some s) v lo hi = none)
    ∧ (v ≠ s.mean → (checkParam (some s) v lo hi).isSome = true) := by
  have houter : ¬(v < lo ∨ v > hi) := by push_neg; exact ⟨h1, h2⟩
  constructor
  · intro hv
    simp only [checkParam, if_neg houter]
    rw [hvar, hmed, hq, hv]
    simp
  · intro hv
    simp only [checkParam, if_neg houter]
    rw [hvar, hmed, hq]
    have habs : |v - s.mean| > 0 := abs_pos.2 (sub_ne_zero.2 hv)
    rw [if_pos (by simpa using habs)]
    rfl

/-- C7 witness. -/
theorem c7_witness :
    checkParam (some ⟨200, 0, 200, 195, 195⟩) 200 50 800 = none
    ∧ (checkParam (some ⟨200, 0, 200, 195, 195⟩) 300 50 800).isSome = true := by
  constructor
  · exact (c7_theorem ⟨200, 0, 200, 195, 195⟩ 200 50 800 rfl rfl rfl (by norm_num)
      (by norm_num)).1 rfl
  · exact (c7_theorem ⟨200, 0, 200, 195, 195⟩ 300 50 800 rfl rfl rfl (by norm_num)
      (by norm_num)).2 (by norm_num)

/-- C8. -/
theorem c8_theorem (tds ph orp turbidity : ℚ)
    (h1 : 150 ≤ tds) (h2 : tds ≤ 300) (h3 : 13/2 ≤ ph) (h4 : ph ≤ 17/2)
    (h5 : 300 ≤ orp) (h6 : orp ≤ 600) (h7 : turbidity ≤ 1) :
    tds_score tds = 100 ∧ ph_score ph = 100 ∧ orp_score orp = 100
    ∧ turb_score turbidity = 100
    ∧ calculate_quality_score tds ph orp turbidity = 100
    ∧ get_overall_status (calculate_quality_score tds ph orp turbidity) = "excellent"
    ∧ quality_score_ml ⟨225, 36/5, 450, 1/5, 22⟩ = 100
    ∧ get_overall_status (quality_score_ml ⟨225, 36/5, 450, 1/5, 22⟩) = "excellent" := by
  have hts : tds_score tds = 100 := by rw [tds_score, if_pos ⟨h1, h2⟩]
  have hps : ph_score ph = 100 := by rw [ph_score, if_pos ⟨h3, h4⟩]
  have hos : orp_score orp = 100 := by rw [orp_score, if_pos ⟨h5, h6⟩]
  have hbs : turb_score turbidity = 100 := by rw [turb_score, if_pos h7]
  have hc : calculate_quality_score tds ph orp turbidity = 100 := by
    rw [calculate_quality_score, hts, hps, hos, hbs]
    norm_num [round1, roundEven]
  have hml : quality_score_ml ⟨225, 36/5, 450, 1/5, 22⟩ = 100 := by
    norm_num [quality_score_ml, subscore_ml, round1, roundEven]
  refine ⟨hts, hps, hos, hbs, hc, ?_, hml, ?_⟩
  · rw [hc]
    norm_num [get_overall_status]
  · rw [hml]
    norm_num [get_overall_status]

/-- C8 witness. -/
theorem c8_witness :
    calculate_quality_score 225 (36/5) 450 (1/5) = 100
    ∧ get_overall_status (calculate_quality_score 225 (36/5) 450 (1/5)) = "excellent" := by
  have h := c8_theorem 225 (36/5) 450 (1/5) (by norm_num) (by norm_num) (by norm_num)
    (by norm_num) (by norm_num) (by norm_num) (by norm_num)
  exact ⟨h.2.2.2.2.1, h.2.2.2.2.2.1⟩

/-- C9. -/
theorem c9_theorem :
    (∀ (u : ℚ) (d : ℤ) (j : ℚ), predict_saturation [] u d j = .error)
    ∧ (∀ (u : ℚ) (d : ℤ) (j : ℚ), analyze_water_quality_simple [] u d j = none)
    ∧ (∀ (predict : List Reading → ℚ → ℤ → FilterResult) (b : Baseline) (u : ℚ) (d : ℤ),
        analyze_water_quality_ml predict b [] u d = (b, none)) := by
  exact ⟨fun u d j => rfl, fun u d j => rfl, fun predict b u d => rfl⟩

/-- A key that never occurs in the parsed pairs is absent from the dictionary. -/
theorem buildDict_eq_none (ps : List (List Char × ℚ)) (k : List Char)
    (h : ∀ kv ∈ ps, kv.1 ≠ k) : buildDict ps k = none := by
  have aux : ∀ (l : List (List Char × ℚ)) (d : List Char → Option ℚ), d k = none →
      (∀ kv ∈ l, kv.1 ≠ k) →
      (l.foldl (fun d kv => fun k => if k = kv.1 then some kv.2 else d k) d) k = none := by
    intro l
    induction l with
    | nil => exact fun d hd _ => hd
    | cons kv rest ih =>
      intro d hd hl
      simp only [List.foldl_cons]
      refine ih _ ?_ (fun kv2 hm => hl kv2 (List.mem_cons_of_mem _ hm))
      rw [if_neg (fun he => hl kv (List.mem_cons_self _ _) he.symm)]
      exact hd
  exact aux ps (fun _ => none) rfl h

/-- A malformed pair anywhere in the response aborts the whole parse. -/
theorem parsePairs_eq_none : ∀ (pairs : List (List Char)) (pair : List Char),
    pair ∈ pairs → wellFormedPair pair = false → parsePairs pairs = none := by
  intro pairs
  induction pairs with
  | nil => exact fun pair h _ => absurd h (List.not_mem_nil _)
  | cons p rest ih =>
    intro pair hmem hbad
    rcases List.mem_cons.1 hmem with rfl | hm
    · rw [wellFormedPair] at hbad
      simp only [parsePairs]
      split
      · next k v heq =>
        rw [heq] at hbad
        dsimp only at hbad
        split
        · next q hq => rw [hq] at hbad; simp at hbad
        · rfl
      · rfl
    · simp only [parsePairs]
      split
      · split
        · rw [ih pair hm hbad]
          rfl
        · rfl
      · rfl

/-- C10. -/
theorem c10_theorem :
    (∀ (response : String) (ps : List (List Char × ℚ)) (r : Reading),
        parsePairs (pySplit ',' response.data) = some ps →
        parse_sensor_response response = some r →
        ((∀ kv ∈ ps, kv.1 ≠ "tds".data) → r.tds = 0)
        ∧ ((∀ kv ∈ ps, kv.1 ≠ "ph".data) → r.ph = 7)
        ∧ ((∀ kv ∈ ps, kv.1 ≠ "orp".data) → r.orp = 0)
        ∧ ((∀ kv ∈ ps, kv.1 ≠ "turb".data) → r.turbidity = 0)
        ∧ ((∀ kv ∈ ps, kv.1 ≠ "temp".data) → r.temperature = 20))
    ∧ (∀ response : String,
        (∃ pair ∈ pySplit ',' response.data, wellFormedPair pair = false) →
        parse_sensor_response response = none) := by
  constructor
  · intro response ps r hps hr
    rw [parse_sensor_response, hps] at hr
    simp only [Option.map_some] at hr
    obtain rfl := Option.some.inj hr
    refine ⟨fun h => ?_, fun h => ?_, fun h => ?_, fun h => ?_, fun h => ?_⟩ <;>
      simp [buildDict_eq_none ps _ h]
  · intro response h
    obtain ⟨pair, hmem, hbad⟩ := h
    rw [parse_sensor_response, parsePairs_eq_none _ pair hmem hbad]
    rfl


/-- C10 witness helper: `float("1")` parses to 1. -/
theorem parseFloatQ_one : parseFloatQ ['1'] = some 1 := by
  simp +decide [parseFloatQ, splitSign, digitsToNat]

/-- C10 witness helper: the single pair `t:1` parses, with key `t`. -/
theorem parsePairs_t1 : parsePairs (pySplit ',' "t:1".data) = some [(['t'], 1)] := by
  have hsp : pySplit ',' "t:1".data = [['t', ':', '1']] := by decide
  have hsc : pySplit ':' ['t', ':', '1'] = [['t'], ['1']] := by decide
  rw [hsp]
  simp only [parsePairs, hsc]
  norm_num [parseFloatQ_one, show pyStrip ['1'] = ['1'] from by decide,
    show pyLower (pyStrip ['t']) = ['t'] from by decide]

/-- C10 witness helper: the parsed reading for `t:1` is all defaults. -/
theorem parse_t1 : parse_sensor_response "t:1" = some ⟨0, 7, 0, 0, 20⟩ := by
  rw [parse_sensor_response, parsePairs_t1]
  simp only [Option.map_some]
  congr 1

/-- C10 witness. -/
theorem c10_witness :
    (Reading.mk 0 7 0 0 20).ph = 7 ∧ parse_sensor_response "no colon" = none := by
  constructor
  · exact (c10_theorem.1 "t:1" [(['t'], 1)] ⟨0, 7, 0, 0, 20⟩ parsePairs_t1 parse_t1).2.1
      (by decide)
  · exact c10_theorem.2 "no colon" ⟨"no colon".data, by decide, by decide⟩

end AquaSentinel
